import Mathlib

/-!
Shallow embedding of the ContestGuard relay server (server/server.py).

The server keeps a single in-memory dict `SESSIONS : { session_id ↦ record }`
and exposes eight HTTP handlers.  We model the dict as an association list
with unique keys (`Sessions`), a session record as a structure mirroring the
dict literal built in `create_session`, and each Flask handler as a pure
function from the registry state and the inbound request data to a
response/error together with the successor state.  Nondeterministic inputs
(generated identifiers, the wall clock `now_iso()`) are passed as explicit
parameters.
-/

/-- One log entry, as built in `post_log` (server.py:149-155). -/
structure LogEntry where
  timestamp : String
  student_id : String
  hostname : String
  event : String
  detail : String
deriving Repr, DecidableEq

/-- A session record, mirroring the dict literal of `create_session`
(server.py:68-79).  `ips_updated` is absent until the first policy push
(`set_ips` adds the key, server.py:101), hence an `Option`. -/
structure SessionRecord where
  session_id : String
  session_code : String
  admin_token : String
  contest_name : String
  allowed_ips : List String
  status : String
  created_at : String
  ended_at : Option String
  ips_updated : Option String
  logs : List LogEntry
  student_count : Nat
deriving Repr, DecidableEq

/-- The `SESSIONS` dict (server.py:30), as an association list. -/
abbrev Sessions := List (String × SessionRecord)

/-- `SESSIONS.get(session_id)` (server.py:38). -/
def lookup (st : Sessions) (sid : String) : Option SessionRecord :=
  match st with
  | [] => none
  | (k, v) :: rest => if k = sid then some v else lookup rest sid

/-- `SESSIONS[session_id] = r`: overwrite the entry if the key exists,
otherwise insert it. -/
def setEntry (st : Sessions) (sid : String) (r : SessionRecord) : Sessions :=
  match st with
  | [] => [(sid, r)]
  | (k, v) :: rest => if k = sid then (k, r) :: rest else (k, v) :: setEntry rest sid r

/-- A JSON value appearing as the `allowed_ips` body field; `set_ips` only
distinguishes lists from non-lists (`isinstance(ips, list)`, server.py:97). -/
inductive JVal where
  | jstr (s : String)
  | jnum (n : Int)
  | jbool (b : Bool)
  | jnull
  | jlist (l : List String)
deriving Repr, DecidableEq

/-- `isinstance(ips, list)` (server.py:97). -/
def JVal.isList : JVal → Bool
  | .jlist _ => true
  | _ => false

/-- The request-dependent data a handler reads: the two credential headers,
whether the body parses as JSON (`request.is_json`), the JSON body fields the
handlers access, and the two credential query parameters.  `none` means the
header / field / parameter is missing. -/
structure Request where
  header_admin : Option String
  header_code : Option String
  is_json : Bool
  body_admin_token : Option String
  body_allowed_ips : Option JVal
  body_contest_name : Option String
  body_student_id : Option String
  body_hostname : Option String
  body_event : Option String
  body_detail : Option String
  query_admin : Option String
  query_code : Option String
deriving Repr, DecidableEq

/-- The admin token extracted by `require_admin` (server.py:44).  The Python
line is
`request.headers.get("X-Admin-Token") or request.json.get("admin_token", "") if request.is_json else request.args.get("admin_token", "")`,
and the conditional expression binds LOOSER than `or`, so it parses as
`(header or body_field) if is_json else query_param`: for a non-JSON request
the header is never consulted.  `None` and `""` are both falsy for `or`. -/
def extractAdminToken (req : Request) : String :=
  if req.is_json then
    match req.header_admin with
    | some h => if h = "" then req.body_admin_token.getD "" else h
    | none => req.body_admin_token.getD ""
  else
    req.query_admin.getD ""

/-- `require_admin` (server.py:43-46): `secrets.compare_digest` is equality of
the two strings; we return the authorization verdict as a `Bool`. -/
def require_admin (s : SessionRecord) (req : Request) : Bool :=
  extractAdminToken req == s.admin_token

/-- The student code extracted by `require_code` (server.py:49):
`request.headers.get("X-Session-Code") or request.args.get("code", "")`. -/
def extractSessionCode (req : Request) : String :=
  match req.header_code with
  | some h => if h = "" then req.query_code.getD "" else h
  | none => req.query_code.getD ""

/-- `require_code` (server.py:48-51). -/
def require_code (s : SessionRecord) (req : Request) : Bool :=
  extractSessionCode req == s.session_code

/-- Modelled from the spec (§6): the admin credential sources checked in the
spec's order — header `X-Admin-Token`, then JSON body field `admin_token`,
then query parameter `admin_token` — with the first non-empty source winning.
Written to compare against `extractAdminToken`, which embeds the source. -/
def specAdminToken (req : Request) : String :=
  let h := req.header_admin.getD ""
  if h ≠ "" then h
  else
    let b := if req.is_json then req.body_admin_token.getD "" else ""
    if b ≠ "" then b else req.query_admin.getD ""

/-- A serialized JSON field value, enough to state which fields a response
carries. -/
inductive Val where
  | vstr (s : String)
  | vnat (n : Nat)
  | vnull
  | vstrs (l : List String)
  | vlogs (l : List LogEntry)
deriving Repr, DecidableEq

/-- A success response body: an ordered list of (field name, value), as
`jsonify` serializes a dict. -/
abbrev Resp := List (String × Val)

/-- The error kinds raised via `abort` (mapped to HTTP 404 / 403 / 400 by the
error handlers, server.py:188-198). -/
inductive ApiError where
  | notFound
  | forbidden
  | invalidInput
deriving Repr, DecidableEq

/-- The error response body `{"error": str(e)}` (server.py:188-198). -/
def errorBody : ApiError → Resp
  | .notFound => [("error", .vstr "404 Not Found: Session not found")]
  | .forbidden => [("error", .vstr "403 Forbidden: Invalid admin token")]
  | .invalidInput => [("error", .vstr "400 Bad Request: allowed_ips must be a list")]

/-- `data.get("allowed_ips", [])` (server.py:96) where
`data = request.get_json(silent=True) or {}`: an absent field or a non-JSON
body yields the default `[]`. -/
def reqIps (req : Request) : JVal :=
  if req.is_json then req.body_allowed_ips.getD (.jlist []) else .jlist []

/-- `data.get("contest_name", "Contest")` (server.py:72). -/
def reqContestName (req : Request) : String :=
  if req.is_json then req.body_contest_name.getD "Contest" else "Contest"

/-- The log entry built by `post_log` (server.py:149-155), with the
server-stamped time `t` and the body fields' documented defaults. -/
def mkEntry (req : Request) (t : String) : LogEntry :=
  { timestamp := t
    student_id := if req.is_json then req.body_student_id.getD "unknown" else "unknown"
    hostname := if req.is_json then req.body_hostname.getD "" else ""
    event := if req.is_json then req.body_event.getD "" else ""
    detail := if req.is_json then req.body_detail.getD "" else "" }

/-- `lst[-1000:]` applied when the log list exceeds 1000 entries
(server.py:158-159). -/
def trimLogs (l : List LogEntry) : List LogEntry :=
  if l.length > 1000 then l.drop (l.length - 1000) else l

/-- The fresh record inserted by `create_session` (server.py:68-79). -/
def freshRecord (sid tok code : String) (req : Request) (t : String) : SessionRecord :=
  { session_id := sid
    session_code := code
    admin_token := tok
    contest_name := reqContestName req
    allowed_ips := []
    status := "active"
    created_at := t
    ended_at := none
    ips_updated := none
    logs := []
    student_count := 0 }

/-- `create_session` (server.py:60-86).  The generated identifier `sid`, admin
token `tok`, student code `code` and the clock reading `t` are parameters:
the source draws them from `uuid4`, `secrets` and `now_iso()` and performs no
collision check before `SESSIONS[session_id] = {...}`. -/
def create_session (st : Sessions) (sid tok code : String) (req : Request) (t : String) :
    Resp × Sessions :=
  ([("session_id", .vstr sid), ("session_code", .vstr code), ("admin_token", .vstr tok),
    ("message", .vstr "Session created. Share session_id + session_code with students via QR.")],
   setEntry st sid (freshRecord sid tok code req t))

/-- `set_ips` (server.py:89-102): lookup, then admin auth, then the
`isinstance(ips, list)` check; on success the list is replaced wholesale and
`ips_updated` stamped. -/
def set_ips (st : Sessions) (sid : String) (req : Request) (t : String) :
    Except ApiError Resp × Sessions :=
  match lookup st sid with
  | none => (.error .notFound, st)
  | some s =>
    if require_admin s req then
      match reqIps req with
      | .jlist l =>
        (.ok [("message", .vstr "IPs updated"), ("count", .vnat l.length),
              ("allowed_ips", .vstrs l)],
         setEntry st sid { s with allowed_ips := l, ips_updated := some t })
      | _ => (.error .invalidInput, st)
    else (.error .forbidden, st)

/-- `get_ips` (server.py:105-117), the student policy fetch: increments
`student_count` on every successful call. -/
def get_ips (st : Sessions) (sid : String) (req : Request) :
    Except ApiError Resp × Sessions :=
  match lookup st sid with
  | none => (.error .notFound, st)
  | some s =>
    if require_code s req then
      (.ok [("session_id", .vstr sid), ("contest_name", .vstr s.contest_name),
            ("allowed_ips", .vstrs s.allowed_ips), ("status", .vstr s.status),
            ("updated_at", .vstr (s.ips_updated.getD s.created_at))],
       setEntry st sid { s with student_count := s.student_count + 1 })
    else (.error .forbidden, st)

/-- `get_status` (server.py:120-129): the lightweight poll; mutates nothing. -/
def get_status (st : Sessions) (sid : String) (req : Request) :
    Except ApiError Resp × Sessions :=
  match lookup st sid with
  | none => (.error .notFound, st)
  | some s =>
    if require_code s req then
      (.ok [("status", .vstr s.status), ("allowed_ips", .vstrs s.allowed_ips),
            ("updated_at", .vstr (s.ips_updated.getD s.created_at))],
       st)
    else (.error .forbidden, st)

/-- `end_session` (server.py:132-139): sets status to ended and re-stamps
`ended_at` with this call's clock reading, whatever the current status. -/
def end_session (st : Sessions) (sid : String) (req : Request) (t : String) :
    Except ApiError Resp × Sessions :=
  match lookup st sid with
  | none => (.error .notFound, st)
  | some s =>
    if require_admin s req then
      (.ok [("message", .vstr "Session ended"), ("ended_at", .vstr t)],
       setEntry st sid { s with status := "ended", ended_at := some t })
    else (.error .forbidden, st)

/-- `post_log` (server.py:142-161): appends one entry then applies the
1000-entry sliding-window trim. -/
def post_log (st : Sessions) (sid : String) (req : Request) (t : String) :
    Except ApiError Resp × Sessions :=
  match lookup st sid with
  | none => (.error .notFound, st)
  | some s =>
    if require_code s req then
      (.ok [("message", .vstr "Logged")],
       setEntry st sid { s with logs := trimLogs (s.logs ++ [mkEntry req t]) })
    else (.error .forbidden, st)

/-- `get_logs` (server.py:164-175). -/
def get_logs (st : Sessions) (sid : String) (req : Request) :
    Except ApiError Resp × Sessions :=
  match lookup st sid with
  | none => (.error .notFound, st)
  | some s =>
    if require_admin s req then
      (.ok [("session_id", .vstr sid), ("contest_name", .vstr s.contest_name),
            ("student_count", .vnat s.student_count), ("log_count", .vnat s.logs.length),
            ("logs", .vlogs s.logs)],
       st)
    else (.error .forbidden, st)

/-- The record serialized as `s.items()`: the ten keys in the insertion order
of the `create_session` dict literal, plus `ips_updated` appended once
`set_ips` has added the key. -/
def recordItems (s : SessionRecord) : Resp :=
  [("session_id", .vstr s.session_id),
   ("session_code", .vstr s.session_code),
   ("admin_token", .vstr s.admin_token),
   ("contest_name", .vstr s.contest_name),
   ("allowed_ips", .vstrs s.allowed_ips),
   ("status", .vstr s.status),
   ("created_at", .vstr s.created_at),
   ("ended_at", match s.ended_at with | some t => .vstr t | none => .vnull),
   ("logs", .vlogs s.logs),
   ("student_count", .vnat s.student_count)]
  ++ (match s.ips_updated with | some t => [("ips_updated", .vstr t)] | none => [])

/-- `get_info` (server.py:178-183):
`{k: v for k, v in s.items() if k != "admin_token"}`. -/
def get_info (st : Sessions) (sid : String) (req : Request) :
    Except ApiError Resp × Sessions :=
  match lookup st sid with
  | none => (.error .notFound, st)
  | some s =>
    if require_admin s req then
      (.ok ((recordItems s).filter (fun kv => kv.1 ≠ "admin_token")), st)
    else (.error .forbidden, st)

/-- `health` (server.py:55-57). -/
def health (st : Sessions) (t : String) : Resp :=
  [("status", .vstr "ok"), ("sessions", .vnat st.length), ("time", .vstr t)]

/-! ### Derived machinery for the claims -/

/-- The last `n` elements of a log list, Python `l[-n:]`. -/
def lastN (n : Nat) (l : List LogEntry) : List LogEntry := l.drop (l.length - n)

/-- Fold `post_log` over a list of (request, clock reading) pairs. -/
def appendMany (sid : String) : Sessions → List (Request × String) → Sessions
  | st, [] => st
  | st, p :: rest => appendMany sid (post_log st sid p.1 p.2).2 rest

/-- A student read: a `get_status` poll or a `get_ips` policy fetch. -/
inductive StudentOp where
  | pollStatus
  | fetchPolicy
deriving Repr, DecidableEq

/-- Run a sequence of student reads against one session with one request. -/
def runStudentOps (sid : String) (req : Request) : Sessions → List StudentOp → Sessions
  | st, [] => st
  | st, .pollStatus :: rest => runStudentOps sid req (get_status st sid req).2 rest
  | st, .fetchPolicy :: rest => runStudentOps sid req (get_ips st sid req).2 rest

/-- Number of `fetchPolicy` calls in a sequence of student reads. -/
def countFetches : List StudentOp → Nat
  | [] => 0
  | .pollStatus :: rest => countFetches rest
  | .fetchPolicy :: rest => countFetches rest + 1

/-- One inbound API call, with its nondeterministic inputs (generated
identifier, token, code, clock reading) made explicit. -/
inductive Op where
  | create (sid tok code : String) (req : Request) (t : String)
  | setIps (sid : String) (req : Request) (t : String)
  | fetchPolicy (sid : String) (req : Request)
  | pollStatus (sid : String) (req : Request)
  | endSess (sid : String) (req : Request) (t : String)
  | appendLog (sid : String) (req : Request) (t : String)
  | readLogs (sid : String) (req : Request)
  | readInfo (sid : String) (req : Request)
deriving Repr, DecidableEq

/-- The state transition of one API call. -/
def applyOp (st : Sessions) : Op → Sessions
  | .create sid tok code req t => (create_session st sid tok code req t).2
  | .setIps sid req t => (set_ips st sid req t).2
  | .fetchPolicy sid req => (get_ips st sid req).2
  | .pollStatus sid req => (get_status st sid req).2
  | .endSess sid req t => (end_session st sid req t).2
  | .appendLog sid req t => (post_log st sid req t).2
  | .readLogs sid req => (get_logs st sid req).2
  | .readInfo sid req => (get_info st sid req).2

/-- Run a sequence of API calls. -/
def applyOps (st : Sessions) : List Op → Sessions
  | [] => st
  | op :: rest => applyOps (applyOp st op) rest

/-- Does this call create a session under identifier `sid`? -/
def createsId (op : Op) (sid : String) : Bool :=
  match op with
  | .create sid2 _ _ _ _ => sid2 == sid
  | _ => false

/-- The field names of a response body. -/
def respKeys (r : Resp) : List String := r.map Prod.fst

/-! ### Concrete sample data used by witnesses and counterexamples -/

/-- A sample active session record. -/
def sampleRec : SessionRecord :=
  { session_id := "A3F7B2C1"
    session_code := "1234"
    admin_token := "c0ffee"
    contest_name := "Contest"
    allowed_ips := ["10.0.0.0/8"]
    status := "active"
    created_at := "2026-01-01T00:00:00Z"
    ended_at := none
    ips_updated := none
    logs := []
    student_count := 0 }

/-- A request presenting no credentials and no JSON body. -/
def emptyReq : Request :=
  { header_admin := none
    header_code := none
    is_json := false
    body_admin_token := none
    body_allowed_ips := none
    body_contest_name := none
    body_student_id := none
    body_hostname := none
    body_event := none
    body_detail := none
    query_admin := none
    query_code := none }

/-- A JSON request carrying `sampleRec`'s admin token in the header. -/
def adminJsonReq : Request := { emptyReq with is_json := true, header_admin := some "c0ffee" }

/-- A non-JSON request carrying `sampleRec`'s admin token in the header only. -/
def adminHdrOnlyReq : Request := { emptyReq with header_admin := some "c0ffee" }

/-- A JSON request with a wrong non-empty header but `sampleRec`'s correct
admin token in both the body field and the query parameter. -/
def wrongHdrReq : Request :=
  { emptyReq with
    is_json := true
    header_admin := some "wrongtoken"
    body_admin_token := some "c0ffee"
    query_admin := some "c0ffee" }

/-- A request carrying `sampleRec`'s session code in the header. -/
def studentReq : Request := { emptyReq with header_code := some "1234" }

/-- A one-session registry holding `sampleRec`. -/
def sampleSt : Sessions := [("A3F7B2C1", sampleRec)]

/-- `sampleRec` after the admin has ended the session. -/
def endedRec : SessionRecord :=
  { sampleRec with status := "ended", ended_at := some "2026-01-01T01:00:00Z" }

/-- A one-session registry holding the ended record. -/
def endedSt : Sessions := [("A3F7B2C1", endedRec)]

/-- A correctly authorized JSON policy push whose `allowed_ips` field is a
string, not a list. -/
def badIpsReq : Request :=
  { emptyReq with
    is_json := true
    header_admin := some "c0ffee"
    body_allowed_ips := some (.jstr "not-a-list") }

/-- A second session record, distinct from `sampleRec`. -/
def otherRec : SessionRecord :=
  { sampleRec with
    session_id := "B7E1C9D0"
    session_code := "9999"
    admin_token := "deadbeef" }

/-- A two-session registry. -/
def twoSt : Sessions := [("A3F7B2C1", sampleRec), ("B7E1C9D0", otherRec)]

/-- Ten `get_status` polls and three `get_ips` fetches, interleaved. -/
def c2Ops : List StudentOp :=
  [.pollStatus, .pollStatus, .fetchPolicy, .pollStatus, .pollStatus, .pollStatus,
   .fetchPolicy, .pollStatus, .pollStatus, .pollStatus, .fetchPolicy, .pollStatus,
   .pollStatus]

/-- A sequence of API calls touching the ended session (and creating an
unrelated one), none of which reuses its identifier for `create`. -/
def c8Ops : List Op :=
  [.pollStatus "A3F7B2C1" studentReq,
   .setIps "A3F7B2C1" adminJsonReq "2026-01-01T02:00:00Z",
   .appendLog "A3F7B2C1" studentReq "2026-01-01T02:01:00Z",
   .endSess "A3F7B2C1" adminJsonReq "2026-01-01T02:02:00Z",
   .create "B7E1C9D0" "deadbeef" "9999" emptyReq "2026-01-01T02:03:00Z",
   .readInfo "A3F7B2C1" adminJsonReq]

/-! ### Registry lemmas -/

theorem lookup_setEntry_self (st : Sessions) (sid : String) (r : SessionRecord) :
    lookup (setEntry st sid r) sid = some r := by
  induction st with
  | nil => simp [setEntry, lookup]
  | cons kv rest ih =>
    obtain ⟨k, v⟩ := kv
    by_cases h : k = sid <;> simp [setEntry, lookup, h, ih]

theorem lookup_setEntry_ne (st : Sessions) (sid sid2 : String) (r : SessionRecord)
    (h : sid ≠ sid2) : lookup (setEntry st sid r) sid2 = lookup st sid2 := by
  induction st with
  | nil => simp [setEntry, lookup, h]
  | cons kv rest ih =>
    obtain ⟨k, v⟩ := kv
    by_cases hk : k = sid
    · subst hk
      simp [setEntry, lookup, h, ih]
    · simp only [setEntry, if_neg hk]
      by_cases hk2 : k = sid2 <;> simp [lookup, hk2, ih]

/-! ### Claim C1 — admin credential extraction -/

/-- Claim C1, counterexample: the claim says that whenever the presented
`X-Admin-Token` header equals the record's admin token, authorization
succeeds regardless of the request body's content type.  In the source the
conditional expression of `require_admin` binds looser than `or`, so for a
non-JSON request the header is ignored and only the query parameter is
consulted: here the header matches the token (and the spec-order extraction
`specAdminToken` would accept), yet `require_admin` rejects and `get_logs`
answers Forbidden with the registry unchanged. -/
theorem C1_counterexample :
    adminHdrOnlyReq.header_admin = some sampleRec.admin_token ∧
    adminHdrOnlyReq.is_json = false ∧
    specAdminToken adminHdrOnlyReq = sampleRec.admin_token ∧
    require_admin sampleRec adminHdrOnlyReq = false ∧
    get_logs sampleSt "A3F7B2C1" adminHdrOnlyReq = (.error .forbidden, sampleSt) := by
  refine ⟨rfl, rfl, by decide, by decide, ?_⟩
  simp [get_logs, sampleSt, lookup, require_admin]
  decide

/-- Claim C1 (amended): admin credential extraction depends on the body's
content type.  For a JSON request the sources are the `X-Admin-Token` header
and then the body field `admin_token`, first non-empty winning, and the query
parameter is never consulted: a non-empty header decides authorization by
itself — in particular a matching one authorizes and a mismatching one is
rejected even when the body or the query carries the correct token — and the
body field is compared only when the header is absent or empty.  For a
non-JSON request only the query parameter `admin_token` is consulted and the
header and body are ignored. -/
theorem C1_admin_extraction (s : SessionRecord) (req : Request) :
    (∀ h, req.is_json = true → req.header_admin = some h → h ≠ "" →
      require_admin s req = (h == s.admin_token))
    ∧ (req.is_json = true → (req.header_admin = none ∨ req.header_admin = some "") →
      require_admin s req = (req.body_admin_token.getD "" == s.admin_token))
    ∧ (req.is_json = false →
      require_admin s req = (req.query_admin.getD "" == s.admin_token)) := by
  refine ⟨?_, ?_, ?_⟩
  · intro h hj hh hne
    simp [require_admin, extractAdminToken, hj, hh, hne]
  · rintro hj (hh | hh) <;> simp [require_admin, extractAdminToken, hj, hh]
  · intro hj
    simp [require_admin, extractAdminToken, hj]

/-- Witness for `C1_admin_extraction`: a JSON request with a wrong non-empty
header is rejected although both the body field and the query parameter carry
the record's correct token — the non-empty header wins and the fallbacks are
never consulted. -/
theorem C1_admin_extraction_witness :
    require_admin sampleRec wrongHdrReq = false := by
  rw [(C1_admin_extraction sampleRec wrongHdrReq).1 "wrongtoken" rfl rfl (by decide)]
  decide

/-! ### Claim C10 — unknown session id gives NotFound before any credential check -/

/-- Claim C10: every session-scoped handler calls `get_session` first
(server.py:37-41), so an unknown session id yields NotFound whatever
credentials the request presents, and the registry is unchanged. -/
theorem C10_unknown_session (st : Sessions) (sid : String) (req : Request) (t : String)
    (h : lookup st sid = none) :
    set_ips st sid req t = (.error .notFound, st) ∧
    get_ips st sid req = (.error .notFound, st) ∧
    get_status st sid req = (.error .notFound, st) ∧
    end_session st sid req t = (.error .notFound, st) ∧
    post_log st sid req t = (.error .notFound, st) ∧
    get_logs st sid req = (.error .notFound, st) ∧
    get_info st sid req = (.error .notFound, st) := by
  refine ⟨?_, ?_, ?_, ?_, ?_, ?_, ?_⟩ <;>
    simp [set_ips, get_ips, get_status, end_session, post_log, get_logs, get_info, h]

/-- Witness for `C10_unknown_session`: an empty registry with a fully
credentialed request still answers NotFound. -/
theorem C10_unknown_session_witness :
    set_ips [] "NOPE" adminJsonReq "2026-01-01T00:00:00Z" = (.error .notFound, []) :=
  (C10_unknown_session [] "NOPE" adminJsonReq "2026-01-01T00:00:00Z" rfl).1

/-! ### Claim C5 — endSession semantics -/

/-- Claim C5: `end_session` fails with NotFound for an unknown id; for an
existing session an authorized call always succeeds whatever the current
status, sets status to ended and stamps `ended_at` with this call's clock
reading — so repeated calls on an already-ended session succeed and re-stamp. -/
theorem C5_end_session (st : Sessions) (sid : String) (req : Request) (t : String) :
    (lookup st sid = none → end_session st sid req t = (.error .notFound, st)) ∧
    (∀ s, lookup st sid = some s → require_admin s req = true →
      end_session st sid req t =
        (.ok [("message", .vstr "Session ended"), ("ended_at", .vstr t)],
         setEntry st sid { s with status := "ended", ended_at := some t })) := by
  constructor
  · intro h
    simp [end_session, h]
  · intro s hs ha
    simp [end_session, hs, ha]

/-- Witness for `C5_end_session`: a second end call on the already-ended
sample session succeeds and re-stamps `ended_at`. -/
theorem C5_end_session_witness :
    end_session endedSt "A3F7B2C1" adminJsonReq "2026-01-01T02:00:00Z" =
      (.ok [("message", .vstr "Session ended"),
            ("ended_at", .vstr "2026-01-01T02:00:00Z")],
       setEntry endedSt "A3F7B2C1"
         { endedRec with status := "ended", ended_at := some "2026-01-01T02:00:00Z" }) :=
  (C5_end_session endedSt "A3F7B2C1" adminJsonReq "2026-01-01T02:00:00Z").2
    endedRec (by decide) (by decide)

/-! ### Claim C6 — repeated endSession and the original ended_at -/

/-- Claim C6, counterexample: the claim says a further `end_session` call on
an already-ended session leaves `ended_at` unchanged and re-reports the
original timestamp.  The code unconditionally re-stamps (server.py:138): on
the sample session ended at 01:00:00, a second call at 02:00:00 stores and
reports 02:00:00. -/
theorem C6_counterexample :
    endedRec.status = "ended" ∧
    endedRec.ended_at = some "2026-01-01T01:00:00Z" ∧
    lookup (end_session endedSt "A3F7B2C1" adminJsonReq "2026-01-01T02:00:00Z").2 "A3F7B2C1" =
      some { endedRec with ended_at := some "2026-01-01T02:00:00Z" } ∧
    (end_session endedSt "A3F7B2C1" adminJsonReq "2026-01-01T02:00:00Z").1 =
      .ok [("message", .vstr "Session ended"), ("ended_at", .vstr "2026-01-01T02:00:00Z")] ∧
    ("2026-01-01T02:00:00Z" : String) ≠ "2026-01-01T01:00:00Z" := by
  refine ⟨rfl, rfl, by decide, by rfl, by decide⟩

/-- Claim C6 (amended): a further `end_session` call on an already-ended
session succeeds, but overwrites `ended_at` with the new call's clock reading
and reports the new value, not the original. -/
theorem C6_restamp (st : Sessions) (sid : String) (req : Request) (t t0 : String)
    (s : SessionRecord) (hs : lookup st sid = some s) (hst : s.status = "ended")
    (he : s.ended_at = some t0) (ha : require_admin s req = true) :
    end_session st sid req t =
      (.ok [("message", .vstr "Session ended"), ("ended_at", .vstr t)],
       setEntry st sid { s with status := "ended", ended_at := some t }) := by
  simp [end_session, hs, ha]

/-- Witness for `C6_restamp` on the concrete ended session. -/
theorem C6_restamp_witness :
    end_session endedSt "A3F7B2C1" adminJsonReq "2026-01-01T03:00:00Z" =
      (.ok [("message", .vstr "Session ended"),
            ("ended_at", .vstr "2026-01-01T03:00:00Z")],
       setEntry endedSt "A3F7B2C1"
         { endedRec with status := "ended", ended_at := some "2026-01-01T03:00:00Z" }) :=
  C6_restamp endedSt "A3F7B2C1" adminJsonReq "2026-01-01T03:00:00Z" "2026-01-01T01:00:00Z"
    endedRec (by decide) rfl rfl (by decide)

/-! ### Claim C4 — allowed_ips input validation -/

/-- Claim C4: for an existing session and an authorized push, a non-list
`allowed_ips` payload fails with InvalidInput and leaves the whole registry
(hence the record, including `ips_updated`) unchanged; a list payload
replaces `allowed_ips` wholesale and stamps `ips_updated` with this call's
clock reading. -/
theorem C4_ips_validation (st : Sessions) (sid : String) (req : Request) (t : String)
    (s : SessionRecord) (hs : lookup st sid = some s) (ha : require_admin s req = true) :
    ((reqIps req).isList = false →
      set_ips st sid req t = (.error .invalidInput, st)) ∧
    (∀ l, reqIps req = .jlist l →
      set_ips st sid req t =
        (.ok [("message", .vstr "IPs updated"), ("count", .vnat l.length),
              ("allowed_ips", .vstrs l)],
         setEntry st sid { s with allowed_ips := l, ips_updated := some t })) := by
  constructor
  · intro hnl
    cases hip : reqIps req with
    | jlist l => rw [hip] at hnl; simp [JVal.isList] at hnl
    | jstr a => simp [set_ips, hs, ha, hip]
    | jnum a => simp [set_ips, hs, ha, hip]
    | jbool a => simp [set_ips, hs, ha, hip]
    | jnull => simp [set_ips, hs, ha, hip]
  · intro l hl
    simp [set_ips, hs, ha, hl]

/-- Witness for `C4_ips_validation`: pushing a string payload to the sample
session returns InvalidInput and leaves the registry as it was. -/
theorem C4_ips_validation_witness :
    set_ips sampleSt "A3F7B2C1" badIpsReq "2026-01-01T00:30:00Z" =
      (.error .invalidInput, sampleSt) :=
  (C4_ips_validation sampleSt "A3F7B2C1" badIpsReq "2026-01-01T00:30:00Z" sampleRec
    (by decide) (by decide)).1 (by decide)

/-! ### Claim C2 — student_count semantics -/

/-- `get_status` never mutates the registry, in any branch. -/
theorem get_status_state (st : Sessions) (sid : String) (req : Request) :
    (get_status st sid req).2 = st := by
  cases h : lookup st sid with
  | none => simp [get_status, h]
  | some s => by_cases hc : require_code s req <;> simp [get_status, h, hc]

/-- Claim C2: `get_status` never changes the registry (so never changes
student_count), while each successful `get_ips` increments student_count by
exactly 1; hence any interleaving of successful polls and fetches leaves
student_count raised by exactly the number of fetches — 3 for 10 polls and
3 fetches on a fresh session. -/
theorem C2_counter (sid : String) (req : Request) (ops : List StudentOp)
    (st : Sessions) (s : SessionRecord) (hs : lookup st sid = some s)
    (hc : require_code s req = true) :
    (get_status st sid req).2 = st ∧
    lookup (runStudentOps sid req st ops) sid =
      some { s with student_count := s.student_count + countFetches ops } := by
  refine ⟨get_status_state st sid req, ?_⟩
  induction ops generalizing st s with
  | nil => exact hs
  | cons op rest ih =>
    cases op with
    | pollStatus =>
      simp only [runStudentOps]
      rw [get_status_state]
      exact ih st s hs hc
    | fetchPolicy =>
      have h2 : (get_ips st sid req).2 =
          setEntry st sid { s with student_count := s.student_count + 1 } := by
        simp [get_ips, hs, hc]
      simp only [runStudentOps]
      rw [h2]
      have h3 := ih (setEntry st sid { s with student_count := s.student_count + 1 })
        { s with student_count := s.student_count + 1 } (lookup_setEntry_self _ _ _) hc
      rw [h3]
      have harith : s.student_count + 1 + countFetches rest
          = s.student_count + countFetches (StudentOp.fetchPolicy :: rest) := by
        simp only [countFetches]
        omega
      rw [← harith]

/-- Witness for `C2_counter`: ten polls and three fetches interleaved on the
fresh sample session leave student_count = 0 + 3. -/
theorem C2_counter_witness :
    lookup (runStudentOps "A3F7B2C1" studentReq sampleSt c2Ops) "A3F7B2C1" =
      some { sampleRec with student_count := sampleRec.student_count + countFetches c2Ops } :=
  (C2_counter "A3F7B2C1" studentReq c2Ops sampleSt sampleRec (by decide) (by decide)).2

/-! ### Claim C3 — 1000-entry sliding log window -/

/-- `trimLogs` is exactly "keep the last 1000 entries". -/
theorem trimLogs_eq_lastN (l : List LogEntry) : trimLogs l = lastN 1000 l := by
  unfold trimLogs lastN
  by_cases h : l.length > 1000
  · simp [h]
  · have h0 : l.length - 1000 = 0 := by omega
    simp [h, h0]

/-- `lastN` through `reverse`/`take`. -/
theorem lastN_eq_reverse_take (n : Nat) (l : List LogEntry) :
    lastN n l = (l.reverse.take n).reverse := by
  unfold lastN
  rw [List.reverse_take]
  simp

theorem take_append_take (n : Nat) (x y : List LogEntry) :
    (x ++ y.take n).take n = (x ++ y).take n := by
  rw [List.take_append_eq_append_take, List.take_append_eq_append_take, List.take_take,
    min_eq_left (Nat.sub_le n x.length)]

/-- Trimming to the last `n`, appending, and trimming again is the same as
trimming the whole concatenation: the sliding window loses nothing recent. -/
theorem lastN_append_absorb (n : Nat) (a b : List LogEntry) :
    lastN n (lastN n a ++ b) = lastN n (a ++ b) := by
  rw [lastN_eq_reverse_take n (lastN n a ++ b), lastN_eq_reverse_take n (a ++ b),
    lastN_eq_reverse_take n a]
  simp only [List.reverse_append, List.reverse_reverse]
  rw [take_append_take]

theorem lastN_length_le (n : Nat) (l : List LogEntry) : (lastN n l).length ≤ n := by
  simp only [lastN, List.length_drop]
  omega

set_option maxRecDepth 8000 in
/-- Claim C3: starting from a record whose log list is within the bound,
any sequence of successful `post_log` calls leaves exactly the most recently
appended entries, in append order, trimmed to the last 1000 — and hence never
more than 1000 entries. -/
theorem C3_log_window (sid : String) (reqs : List (Request × String))
    (st : Sessions) (s : SessionRecord) (hs : lookup st sid = some s)
    (hlen : s.logs.length ≤ 1000)
    (hauth : ∀ p ∈ reqs, require_code s p.1 = true) :
    lookup (appendMany sid st reqs) sid =
      some { s with logs := lastN 1000 (s.logs ++ reqs.map (fun p => mkEntry p.1 p.2)) } ∧
    (lastN 1000 (s.logs ++ reqs.map (fun p => mkEntry p.1 p.2))).length ≤ 1000 := by
  refine ⟨?_, lastN_length_le _ _⟩
  induction reqs generalizing st s with
  | nil =>
    simp only [appendMany, List.map_nil, List.append_nil]
    have h0 : lastN 1000 s.logs = s.logs := by
      unfold lastN
      have hz : s.logs.length - 1000 = 0 := by omega
      rw [hz, List.drop_zero]
    rw [h0]
    exact hs
  | cons p rest ih =>
    obtain ⟨req, t⟩ := p
    have hcode : require_code s req = true := hauth (req, t) (List.mem_cons_self _ _)
    have hstep : (post_log st sid req t).2 =
        setEntry st sid { s with logs := lastN 1000 (s.logs ++ [mkEntry req t]) } := by
      simp [post_log, hs, hcode, trimLogs_eq_lastN]
    simp only [appendMany]
    rw [hstep]
    have h3 := ih (setEntry st sid { s with logs := lastN 1000 (s.logs ++ [mkEntry req t]) })
      { s with logs := lastN 1000 (s.logs ++ [mkEntry req t]) }
      (lookup_setEntry_self _ _ _)
      (lastN_length_le _ _)
      (fun q hq => hauth q (List.mem_cons_of_mem _ hq))
    rw [h3]
    have hlogs : lastN 1000 (lastN 1000 (s.logs ++ [mkEntry req t])
          ++ rest.map (fun p => mkEntry p.1 p.2))
        = lastN 1000 (s.logs ++ List.map (fun p => mkEntry p.1 p.2) ((req, t) :: rest)) := by
      rw [lastN_append_absorb]
      simp only [List.map_cons, List.append_assoc, List.singleton_append]
    rw [← hlogs]

/-- Witness for `C3_log_window`: two successful appends on the fresh sample
session leave exactly those two entries. -/
theorem C3_log_window_witness :
    lookup (appendMany "A3F7B2C1" sampleSt [(studentReq, "2026-01-01T00:10:00Z"),
        (studentReq, "2026-01-01T00:11:00Z")]) "A3F7B2C1" =
      some { sampleRec with logs := lastN 1000 (sampleRec.logs ++
        ([(studentReq, "2026-01-01T00:10:00Z"), (studentReq, "2026-01-01T00:11:00Z")].map
          (fun p => mkEntry p.1 p.2))) } :=
  (C3_log_window "A3F7B2C1" [(studentReq, "2026-01-01T00:10:00Z"),
      (studentReq, "2026-01-01T00:11:00Z")] sampleSt sampleRec (by decide) (by decide)
      (by decide)).1

/-! ### Claim C7 — admin_token never serialized outside create -/

/-- Claim C7: no success response of any operation other than create — and no
error response — carries an `admin_token` field. -/
theorem C7_token_secrecy (st : Sessions) (sid : String) (req : Request) (t : String) :
    (∀ r st2, set_ips st sid req t = (.ok r, st2) → "admin_token" ∉ respKeys r) ∧
    (∀ r st2, get_ips st sid req = (.ok r, st2) → "admin_token" ∉ respKeys r) ∧
    (∀ r st2, get_status st sid req = (.ok r, st2) → "admin_token" ∉ respKeys r) ∧
    (∀ r st2, end_session st sid req t = (.ok r, st2) → "admin_token" ∉ respKeys r) ∧
    (∀ r st2, post_log st sid req t = (.ok r, st2) → "admin_token" ∉ respKeys r) ∧
    (∀ r st2, get_logs st sid req = (.ok r, st2) → "admin_token" ∉ respKeys r) ∧
    (∀ r st2, get_info st sid req = (.ok r, st2) → "admin_token" ∉ respKeys r) ∧
    (∀ e, "admin_token" ∉ respKeys (errorBody e)) := by
  refine ⟨?_, ?_, ?_, ?_, ?_, ?_, ?_, ?_⟩
  · intro r st2 h
    cases hl : lookup st sid with
    | none => simp [set_ips, hl] at h
    | some s =>
      by_cases ha : require_admin s req
      · cases hip : reqIps req with
        | jlist l =>
          simp [set_ips, hl, ha, hip] at h
          obtain ⟨h1, h2⟩ := h
          subst h1
          simp [respKeys]
        | jstr a => simp [set_ips, hl, ha, hip] at h
        | jnum a => simp [set_ips, hl, ha, hip] at h
        | jbool a => simp [set_ips, hl, ha, hip] at h
        | jnull => simp [set_ips, hl, ha, hip] at h
      · simp [set_ips, hl, ha] at h
  · intro r st2 h
    cases hl : lookup st sid with
    | none => simp [get_ips, hl] at h
    | some s =>
      by_cases hc : require_code s req
      · simp [get_ips, hl, hc] at h
        obtain ⟨h1, h2⟩ := h
        subst h1
        simp [respKeys]
      · simp [get_ips, hl, hc] at h
  · intro r st2 h
    cases hl : lookup st sid with
    | none => simp [get_status, hl] at h
    | some s =>
      by_cases hc : require_code s req
      · simp [get_status, hl, hc] at h
        obtain ⟨h1, h2⟩ := h
        subst h1
        simp [respKeys]
      · simp [get_status, hl, hc] at h
  · intro r st2 h
    cases hl : lookup st sid with
    | none => simp [end_session, hl] at h
    | some s =>
      by_cases ha : require_admin s req
      · simp [end_session, hl, ha] at h
        obtain ⟨h1, h2⟩ := h
        subst h1
        simp [respKeys]
      · simp [end_session, hl, ha] at h
  · intro r st2 h
    cases hl : lookup st sid with
    | none => simp [post_log, hl] at h
    | some s =>
      by_cases hc : require_code s req
      · simp [post_log, hl, hc] at h
        obtain ⟨h1, h2⟩ := h
        subst h1
        simp [respKeys]
      · simp [post_log, hl, hc] at h
  · intro r st2 h
    cases hl : lookup st sid with
    | none => simp [get_logs, hl] at h
    | some s =>
      by_cases ha : require_admin s req
      · simp [get_logs, hl, ha] at h
        obtain ⟨h1, h2⟩ := h
        subst h1
        simp [respKeys]
      · simp [get_logs, hl, ha] at h
  · intro r st2 h
    cases hl : lookup st sid with
    | none => simp [get_info, hl] at h
    | some s =>
      by_cases ha : require_admin s req
      · simp [get_info, hl, ha] at h
        obtain ⟨h1, h2⟩ := h
        subst h1
        intro hmem
        rw [respKeys, List.mem_map] at hmem
        obtain ⟨kv, hkv, hfst⟩ := hmem
        have h3 := (List.mem_filter.mp hkv).2
        simp at h3
        exact h3 hfst
      · simp [get_info, hl, ha] at h
  · intro e
    cases e <;> simp [errorBody, respKeys]

/-- Witness for `C7_token_secrecy`: the serialized `get_info` response for the
concrete ended session has no `admin_token` field. -/
theorem C7_token_secrecy_witness :
    "admin_token" ∉
      respKeys ((recordItems endedRec).filter (fun kv => kv.1 ≠ "admin_token")) :=
  (C7_token_secrecy endedSt "A3F7B2C1" adminJsonReq "2026-01-01T04:00:00Z").2.2.2.2.2.2.1
    ((recordItems endedRec).filter (fun kv => kv.1 ≠ "admin_token")) endedSt rfl

/-! ### Claim C9 — isolation between distinct sessions -/

theorem set_ips_frame (st : Sessions) (A B : String) (hne : A ≠ B) (req : Request)
    (t : String) : lookup (set_ips st A req t).2 B = lookup st B := by
  cases h : lookup st A with
  | none => simp [set_ips, h]
  | some s =>
    by_cases ha : require_admin s req
    · cases hip : reqIps req <;>
        simp [set_ips, h, ha, hip, lookup_setEntry_ne _ _ _ _ hne]
    · simp [set_ips, h, ha]

theorem get_ips_frame (st : Sessions) (A B : String) (hne : A ≠ B) (req : Request) :
    lookup (get_ips st A req).2 B = lookup st B := by
  cases h : lookup st A with
  | none => simp [get_ips, h]
  | some s =>
    by_cases hc : require_code s req <;>
      simp [get_ips, h, hc, lookup_setEntry_ne _ _ _ _ hne]

theorem end_session_frame (st : Sessions) (A B : String) (hne : A ≠ B) (req : Request)
    (t : String) : lookup (end_session st A req t).2 B = lookup st B := by
  cases h : lookup st A with
  | none => simp [end_session, h]
  | some s =>
    by_cases ha : require_admin s req <;>
      simp [end_session, h, ha, lookup_setEntry_ne _ _ _ _ hne]

theorem post_log_frame (st : Sessions) (A B : String) (hne : A ≠ B) (req : Request)
    (t : String) : lookup (post_log st A req t).2 B = lookup st B := by
  cases h : lookup st A with
  | none => simp [post_log, h]
  | some s =>
    by_cases hc : require_code s req <;>
      simp [post_log, h, hc, lookup_setEntry_ne _ _ _ _ hne]

theorem get_logs_state (st : Sessions) (sid : String) (req : Request) :
    (get_logs st sid req).2 = st := by
  cases h : lookup st sid with
  | none => simp [get_logs, h]
  | some s => by_cases ha : require_admin s req <;> simp [get_logs, h, ha]

theorem get_info_state (st : Sessions) (sid : String) (req : Request) :
    (get_info st sid req).2 = st := by
  cases h : lookup st sid with
  | none => simp [get_info, h]
  | some s => by_cases ha : require_admin s req <;> simp [get_info, h, ha]

theorem set_ips_result_eq (st st2 : Sessions) (sid : String) (req : Request) (t : String)
    (hA : lookup st sid = lookup st2 sid) :
    (set_ips st sid req t).1 = (set_ips st2 sid req t).1 := by
  cases h : lookup st sid with
  | none => simp [set_ips, ← hA, h]
  | some s =>
    by_cases ha : require_admin s req
    · cases hip : reqIps req <;> simp [set_ips, ← hA, h, ha, hip]
    · simp [set_ips, ← hA, h, ha]

theorem get_ips_result_eq (st st2 : Sessions) (sid : String) (req : Request)
    (hA : lookup st sid = lookup st2 sid) :
    (get_ips st sid req).1 = (get_ips st2 sid req).1 := by
  cases h : lookup st sid with
  | none => simp [get_ips, ← hA, h]
  | some s => by_cases hc : require_code s req <;> simp [get_ips, ← hA, h, hc]

theorem get_status_result_eq (st st2 : Sessions) (sid : String) (req : Request)
    (hA : lookup st sid = lookup st2 sid) :
    (get_status st sid req).1 = (get_status st2 sid req).1 := by
  cases h : lookup st sid with
  | none => simp [get_status, ← hA, h]
  | some s => by_cases hc : require_code s req <;> simp [get_status, ← hA, h, hc]

theorem end_session_result_eq (st st2 : Sessions) (sid : String) (req : Request)
    (t : String) (hA : lookup st sid = lookup st2 sid) :
    (end_session st sid req t).1 = (end_session st2 sid req t).1 := by
  cases h : lookup st sid with
  | none => simp [end_session, ← hA, h]
  | some s => by_cases ha : require_admin s req <;> simp [end_session, ← hA, h, ha]

theorem post_log_result_eq (st st2 : Sessions) (sid : String) (req : Request)
    (t : String) (hA : lookup st sid = lookup st2 sid) :
    (post_log st sid req t).1 = (post_log st2 sid req t).1 := by
  cases h : lookup st sid with
  | none => simp [post_log, ← hA, h]
  | some s => by_cases hc : require_code s req <;> simp [post_log, ← hA, h, hc]

theorem get_logs_result_eq (st st2 : Sessions) (sid : String) (req : Request)
    (hA : lookup st sid = lookup st2 sid) :
    (get_logs st sid req).1 = (get_logs st2 sid req).1 := by
  cases h : lookup st sid with
  | none => simp [get_logs, ← hA, h]
  | some s => by_cases ha : require_admin s req <;> simp [get_logs, ← hA, h, ha]

theorem get_info_result_eq (st st2 : Sessions) (sid : String) (req : Request)
    (hA : lookup st sid = lookup st2 sid) :
    (get_info st sid req).1 = (get_info st2 sid req).1 := by
  cases h : lookup st sid with
  | none => simp [get_info, ← hA, h]
  | some s => by_cases ha : require_admin s req <;> simp [get_info, ← hA, h, ha]

/-- Claim C9: every session-scoped operation invoked with session id `A`
leaves any other session `B`'s registry entry unchanged, and its response
depends only on `A`'s record — two registries agreeing at `A` produce the
same response whatever they hold elsewhere. -/
theorem C9_isolation (A B : String) (hne : A ≠ B) (st st2 : Sessions) (req : Request)
    (t : String) (hA : lookup st A = lookup st2 A) :
    (lookup (set_ips st A req t).2 B = lookup st B
      ∧ (set_ips st A req t).1 = (set_ips st2 A req t).1) ∧
    (lookup (get_ips st A req).2 B = lookup st B
      ∧ (get_ips st A req).1 = (get_ips st2 A req).1) ∧
    (lookup (get_status st A req).2 B = lookup st B
      ∧ (get_status st A req).1 = (get_status st2 A req).1) ∧
    (lookup (end_session st A req t).2 B = lookup st B
      ∧ (end_session st A req t).1 = (end_session st2 A req t).1) ∧
    (lookup (post_log st A req t).2 B = lookup st B
      ∧ (post_log st A req t).1 = (post_log st2 A req t).1) ∧
    (lookup (get_logs st A req).2 B = lookup st B
      ∧ (get_logs st A req).1 = (get_logs st2 A req).1) ∧
    (lookup (get_info st A req).2 B = lookup st B
      ∧ (get_info st A req).1 = (get_info st2 A req).1) :=
  ⟨⟨set_ips_frame st A B hne req t, set_ips_result_eq st st2 A req t hA⟩,
   ⟨get_ips_frame st A B hne req, get_ips_result_eq st st2 A req hA⟩,
   ⟨by rw [get_status_state], get_status_result_eq st st2 A req hA⟩,
   ⟨end_session_frame st A B hne req t, end_session_result_eq st st2 A req t hA⟩,
   ⟨post_log_frame st A B hne req t, post_log_result_eq st st2 A req t hA⟩,
   ⟨by rw [get_logs_state], get_logs_result_eq st st2 A req hA⟩,
   ⟨by rw [get_info_state], get_info_result_eq st st2 A req hA⟩⟩

/-- Witness for `C9_isolation`: an authorized policy push to the first sample
session leaves the second session's entry untouched. -/
theorem C9_isolation_witness :
    lookup (set_ips twoSt "A3F7B2C1" adminJsonReq "2026-01-01T00:20:00Z").2 "B7E1C9D0"
      = lookup twoSt "B7E1C9D0" :=
  ((C9_isolation "A3F7B2C1" "B7E1C9D0" (by decide) twoSt twoSt adminJsonReq
      "2026-01-01T00:20:00Z" rfl).1).1

/-! ### Claim C8 — monotonicity of the ended status -/

/-- Claim C8, counterexample: the claim includes `create` among the
operations that never revert an ended session, but `create_session` performs
no collision check before `SESSIONS[session_id] = {...}` (server.py:68): a
create whose generated identifier collides with an ended session's identifier
overwrites the record, and the registry entry at that identifier is active
again. -/
theorem C8_counterexample :
    (lookup endedSt "A3F7B2C1").map SessionRecord.status = some "ended" ∧
    (lookup (create_session endedSt "A3F7B2C1" "deadbeef" "5678" emptyReq
        "2026-01-02T00:00:00Z").2 "A3F7B2C1").map SessionRecord.status = some "active" :=
  ⟨by decide, by decide⟩

/-- One API call keeps a session's status, or sets it to "ended", provided
the call is not a `create` reusing that session's identifier. -/
theorem applyOp_status (st : Sessions) (op : Op) (sid : String) (s : SessionRecord)
    (hs : lookup st sid = some s) (hfresh : createsId op sid = false) :
    ∃ s2, lookup (applyOp st op) sid = some s2 ∧
      (s2.status = s.status ∨ s2.status = "ended") := by
  cases op with
  | create sid2 tok code req t =>
    have hne : sid2 ≠ sid := by simpa [createsId] using hfresh
    refine ⟨s, ?_, Or.inl rfl⟩
    simp only [applyOp, create_session]
    rw [lookup_setEntry_ne _ _ _ _ hne]
    exact hs
  | setIps sid2 req t =>
    by_cases he : sid2 = sid
    · subst he
      by_cases ha : require_admin s req
      · cases hip : reqIps req with
        | jlist l =>
          exact ⟨{ s with allowed_ips := l, ips_updated := some t },
            by simp [applyOp, set_ips, hs, ha, hip, lookup_setEntry_self], Or.inl rfl⟩
        | jstr a => exact ⟨s, by simp [applyOp, set_ips, hs, ha, hip], Or.inl rfl⟩
        | jnum a => exact ⟨s, by simp [applyOp, set_ips, hs, ha, hip], Or.inl rfl⟩
        | jbool a => exact ⟨s, by simp [applyOp, set_ips, hs, ha, hip], Or.inl rfl⟩
        | jnull => exact ⟨s, by simp [applyOp, set_ips, hs, ha, hip], Or.inl rfl⟩
      · exact ⟨s, by simp [applyOp, set_ips, hs, ha], Or.inl rfl⟩
    · refine ⟨s, ?_, Or.inl rfl⟩
      simp only [applyOp]
      rw [set_ips_frame st sid2 sid he req t]
      exact hs
  | fetchPolicy sid2 req =>
    by_cases he : sid2 = sid
    · subst he
      by_cases hc : require_code s req
      · exact ⟨{ s with student_count := s.student_count + 1 },
          by simp [applyOp, get_ips, hs, hc, lookup_setEntry_self], Or.inl rfl⟩
      · exact ⟨s, by simp [applyOp, get_ips, hs, hc], Or.inl rfl⟩
    · refine ⟨s, ?_, Or.inl rfl⟩
      simp only [applyOp]
      rw [get_ips_frame st sid2 sid he req]
      exact hs
  | pollStatus sid2 req =>
    refine ⟨s, ?_, Or.inl rfl⟩
    simp only [applyOp]
    rw [get_status_state]
    exact hs
  | endSess sid2 req t =>
    by_cases he : sid2 = sid
    · subst he
      by_cases ha : require_admin s req
      · exact ⟨{ s with status := "ended", ended_at := some t },
          by simp [applyOp, end_session, hs, ha, lookup_setEntry_self], Or.inr rfl⟩
      · exact ⟨s, by simp [applyOp, end_session, hs, ha], Or.inl rfl⟩
    · refine ⟨s, ?_, Or.inl rfl⟩
      simp only [applyOp]
      rw [end_session_frame st sid2 sid he req t]
      exact hs
  | appendLog sid2 req t =>
    by_cases he : sid2 = sid
    · subst he
      by_cases hc : require_code s req
      · exact ⟨{ s with logs := trimLogs (s.logs ++ [mkEntry req t]) },
          by simp [applyOp, post_log, hs, hc, lookup_setEntry_self], Or.inl rfl⟩
      · exact ⟨s, by simp [applyOp, post_log, hs, hc], Or.inl rfl⟩
    · refine ⟨s, ?_, Or.inl rfl⟩
      simp only [applyOp]
      rw [post_log_frame st sid2 sid he req t]
      exact hs
  | readLogs sid2 req =>
    refine ⟨s, ?_, Or.inl rfl⟩
    simp only [applyOp]
    rw [get_logs_state]
    exact hs
  | readInfo sid2 req =>
    refine ⟨s, ?_, Or.inl rfl⟩
    simp only [applyOp]
    rw [get_info_state]
    exact hs

/-- Claim C8 (amended): once a session's status is "ended", no sequence of
API calls reverts it to "active" — provided no `create` call reuses that
session's identifier (the source draws identifiers at random and performs no
collision check, so a colliding create replaces the record with a fresh
active one). -/
theorem C8_status_monotone (ops : List Op) (st : Sessions) (sid : String)
    (s : SessionRecord) (hs : lookup st sid = some s) (hend : s.status = "ended")
    (hfresh : ∀ op ∈ ops, createsId op sid = false) :
    ∃ s2, lookup (applyOps st ops) sid = some s2 ∧ s2.status = "ended" := by
  induction ops generalizing st s with
  | nil => exact ⟨s, hs, hend⟩
  | cons op rest ih =>
    obtain ⟨s1, hs1, hor⟩ := applyOp_status st op sid s hs (hfresh op (List.mem_cons_self _ _))
    have hend1 : s1.status = "ended" := by
      rcases hor with h | h
      · rw [h]
        exact hend
      · exact h
    exact ih (applyOp st op) s1 hs1 hend1 (fun op2 h2 => hfresh op2 (List.mem_cons_of_mem _ h2))

/-- Witness for `C8_status_monotone`: a concrete mixed call sequence against
the ended sample session leaves it ended. -/
theorem C8_status_monotone_witness :
    (lookup (applyOps endedSt c8Ops) "A3F7B2C1").map SessionRecord.status = some "ended" := by
  obtain ⟨s2, h1, h2⟩ := C8_status_monotone c8Ops endedSt "A3F7B2C1" endedRec
    (by decide) rfl (by decide)
  rw [h1]
  simp [h2]
